import Mathlib

/-!
# A formal model of the sqliteutils connection pool and execution core

This file gives a shallow embedding, in Lean 4, of the Go package
`github.com/dropsite-ai/sqliteutils`:

* `pool/pool.go` — the process-wide connection pool (`InitPool`, `ClosePool`,
  `GetPool`, `GetPoolUri`, `ResetPool`, `SetPool` and their unlocked bodies);
* `exec/exec.go` — the statement executor (`ExecMulti`, `ExecMultiTx`,
  `executeRawStatement`, `executeSingleStatement`, `bindParams`, `trimQuery`);
* `exec/blob.go` and the blob-streaming file — `CreateBlob`, `WriteBlobChunk`,
  `StreamReadBlob`, `StreamInsertBlob`.

The underlying SQLite engine (`zombiezen.com/go/sqlite`) is external to the
repository; its behaviour is represented by oracles (an `Engine` record of
functions) for ordinary statements, and by a direct model of the documented
SQLite semantics for the fixed control statements the code issues
(`BEGIN TRANSACTION;`, `COMMIT;`, `ROLLBACK;`) and for zero-filled blob cells
with incremental blob I/O.  Go mutexes are not modelled: every function is a
pure state transformer, which matches the single-lock discipline of the code.
Machine integers (`int`, `int64`) are modelled by `Int`; Go maps by
association lists; errors by `String` values.
-/

/-! ## Connection pool (`pool/pool.go`) -/

/-- Model of a `*sqlitex.Pool` instance as returned by `sqlitex.NewPool`:
the URI it was opened against, its size, and an identity tag so that
distinct instances can be told apart. -/
structure SqlitexPool where
  uri : String
  poolSize : Int
  id : Nat
deriving DecidableEq, Repr

/-- The package-level mutable state of `pool/pool.go`: the globals
`poolUri` and `pool`. -/
structure PoolState where
  poolUri : String
  pool : Option SqlitexPool
deriving DecidableEq, Repr

/-- Behaviour of the external engine as used by the pool: `sqlitex.NewPool`
(which may fail, e.g. if a connection or per-connection setup fails) and
`(*sqlitex.Pool).Close` (`none` = success, `some e` = failure). -/
structure PoolEnv where
  newPool : String → Int → Except String SqlitexPool
  closePool : SqlitexPool → Option String

/-- Error value `sqliteutils.ErrPoolNotInitialized`. -/
def ErrPoolNotInitialized : String := "pool not initialized"

/-- Error wrapper `sqliteutils.FailedToClosePoolError`. -/
def FailedToClosePoolError (e : String) : String := "failed to close pool: " ++ e

/-- Error wrapper `sqliteutils.FailedToInitPoolError`. -/
def FailedToInitPoolError (e uri : String) : String :=
  "failed to init pool: [" ++ uri ++ "] " ++ e

/-- Transcription of `initPoolUnlocked` from `pool/pool.go`.  Note the transcription order:
the global `poolUri` is assigned *before* `sqlitex.NewPool` is attempted, and
is not cleared when `NewPool` fails (on failure `pool` receives the `nil`
result of `NewPool`). -/
def initPoolUnlocked (env : PoolEnv) (st : PoolState) (uri : String) (poolSize : Int) :
    Option String × PoolState :=
  match st.pool with
  | some _ => (none, st)  -- Pool already initialized
  | none =>
    let st1 : PoolState := { st with poolUri := uri }
    match env.newPool uri poolSize with
    | .error e => (some (FailedToInitPoolError e st1.poolUri), { st1 with pool := none })
    | .ok p => (none, { st1 with pool := some p })

/-- Transcription of `closePoolUnlocked` from `pool/pool.go`. -/
def closePoolUnlocked (env : PoolEnv) (st : PoolState) : Option String × PoolState :=
  match st.pool with
  | none => (some ErrPoolNotInitialized, st)
  | some p =>
    match env.closePool p with
    | some e => (some (FailedToClosePoolError e), st)
    | none => ({ poolUri := "", pool := none } : PoolState) |> fun st2 => (none, st2)

/-- Model of `InitPool` (the locked wrapper around `initPoolUnlocked`). -/
def InitPool (env : PoolEnv) (st : PoolState) (uri : String) (poolSize : Int) :
    Option String × PoolState :=
  initPoolUnlocked env st uri poolSize

/-- Model of `ClosePool` (the locked wrapper around `closePoolUnlocked`). -/
def ClosePool (env : PoolEnv) (st : PoolState) : Option String × PoolState :=
  closePoolUnlocked env st

/-- Transcription of `GetPool` from `pool/pool.go`. -/
def GetPool (st : PoolState) : Except String SqlitexPool :=
  match st.pool with
  | none => .error ErrPoolNotInitialized
  | some p => .ok p

/-- Transcription of `GetPoolUri` from `pool/pool.go`. -/
def GetPoolUri (st : PoolState) : String :=
  st.poolUri

/-- Transcription of `ResetPool` from `pool/pool.go`: close, then re-init with the *current*
value of the global `poolUri` — which `closePoolUnlocked` has just reset. -/
def ResetPool (env : PoolEnv) (st : PoolState) (poolSize : Int) :
    Option String × PoolState :=
  match closePoolUnlocked env st with
  | (some e, st1) => (some e, st1)
  | (none, st1) => initPoolUnlocked env st1 st1.poolUri poolSize

/-- Transcription of `SetPool` from `pool/pool.go`: close any existing pool (propagating a
close failure without changing anything else), install the injected pool and
clear the recorded URI. -/
def SetPool (env : PoolEnv) (st : PoolState) (newPool : SqlitexPool) :
    Option String × PoolState :=
  match st.pool with
  | some p =>
    match env.closePool p with
    | some e => (some (FailedToClosePoolError e), st)
    | none => (none, { poolUri := "", pool := some newPool })
  | none => (none, { poolUri := "", pool := some newPool })

/-- A pool environment whose engine operations always succeed. -/
def okPoolEnv : PoolEnv where
  newPool uri poolSize := .ok { uri := uri, poolSize := poolSize, id := 0 }
  closePool _ := none

/-- A pool environment in which `sqlitex.NewPool` always fails. -/
def failNewPoolEnv : PoolEnv where
  newPool _ _ := .error "cannot open database"
  closePool _ := none

/-! ## Pool theorems -/

/-- C8: a second `InitPool` call while a pool is active is a successful
no-op: it returns `nil` and leaves the whole pool state (the pool instance,
the recorded target and its capacity) unchanged. -/
theorem initPool_idempotent (env : PoolEnv) (st : PoolState) (p : SqlitexPool)
    (hp : st.pool = some p) (uri : String) (poolSize : Int) :
    InitPool env st uri poolSize = (none, st) := by
  simp [InitPool, initPoolUnlocked, hp]

theorem initPool_idempotent_check :
    InitPool okPoolEnv { poolUri := "file:orig.db", pool := some ⟨"file:orig.db", 4, 0⟩ }
        "file:other.db" 9 =
      (none, { poolUri := "file:orig.db", pool := some ⟨"file:orig.db", 4, 0⟩ }) :=
  initPool_idempotent okPoolEnv _ ⟨"file:orig.db", 4, 0⟩ rfl "file:other.db" 9

/-- C3 (counterexample): after a failed `InitPool` no pool is active, but
`GetPoolUri` returns the target of the failed attempt rather than the empty
string, because `initPoolUnlocked` records the target before calling
`sqlitex.NewPool` and does not clear it on failure. -/
theorem initPool_failed_uri_not_cleared :
    (InitPool failNewPoolEnv { poolUri := "", pool := none } "file:test.db" 2).1 =
        some (FailedToInitPoolError "cannot open database" "file:test.db") ∧
    GetPool (InitPool failNewPoolEnv { poolUri := "", pool := none } "file:test.db" 2).2 =
        .error ErrPoolNotInitialized ∧
    GetPoolUri (InitPool failNewPoolEnv { poolUri := "", pool := none } "file:test.db" 2).2 =
        "file:test.db" ∧
    GetPoolUri (InitPool failNewPoolEnv { poolUri := "", pool := none } "file:test.db" 2).2 ≠
        "" := by
  refine ⟨rfl, rfl, rfl, ?_⟩
  decide

/-- C3 (amended): when `InitPool` fails because `sqlitex.NewPool` fails, no
pool is left active — `GetPool` afterwards returns the pool-not-initialized
error — but `GetPoolUri` afterwards returns the target passed to the failed
call (not the empty string). -/
theorem initPool_failure_leaves_uri (env : PoolEnv) (st : PoolState)
    (uri : String) (poolSize : Int) (e : String)
    (hp : st.pool = none) (hnew : env.newPool uri poolSize = .error e) :
    (InitPool env st uri poolSize).1 = some (FailedToInitPoolError e uri) ∧
    GetPool (InitPool env st uri poolSize).2 = .error ErrPoolNotInitialized ∧
    GetPoolUri (InitPool env st uri poolSize).2 = uri := by
  simp [InitPool, initPoolUnlocked, hp, hnew, GetPool, GetPoolUri]

theorem initPool_failure_leaves_uri_check :
    (InitPool failNewPoolEnv { poolUri := "", pool := none } "file:test.db" 2).1 =
        some (FailedToInitPoolError "cannot open database" "file:test.db") ∧
    GetPool (InitPool failNewPoolEnv { poolUri := "", pool := none } "file:test.db" 2).2 =
        .error ErrPoolNotInitialized ∧
    GetPoolUri (InitPool failNewPoolEnv { poolUri := "", pool := none } "file:test.db" 2).2 =
        "file:test.db" :=
  initPool_failure_leaves_uri failNewPoolEnv _ "file:test.db" 2 "cannot open database" rfl rfl

/-- C2 (code bug, evaluated at the failing input): with an active pool whose
recorded target is `"file:orig.db"`, `ResetPool 8` succeeds but the pool is
re-initialized against the empty string — `closePoolUnlocked` clears the
global `poolUri` before `initPoolUnlocked` reads it — so afterwards the
recorded target is `""` and the new pool was opened against `""`, not
against `"file:orig.db"` as the function documentation states. -/
theorem resetPool_loses_target :
    (ResetPool okPoolEnv { poolUri := "file:orig.db", pool := some ⟨"file:orig.db", 4, 0⟩ } 8).1 =
        none ∧
    GetPoolUri
        (ResetPool okPoolEnv
          { poolUri := "file:orig.db", pool := some ⟨"file:orig.db", 4, 0⟩ } 8).2 = "" ∧
    (ResetPool okPoolEnv { poolUri := "file:orig.db", pool := some ⟨"file:orig.db", 4, 0⟩ } 8).2.pool =
        some ⟨"", 8, 0⟩ := by
  refine ⟨rfl, rfl, rfl⟩

/-! ## Dynamic Go values

`exec.go` passes parameters as `map[string]interface{}` and dispatches on the
dynamic type with `reflect`.  `GoValue` is the corresponding closed model of
the dynamic values that can reach `bindParams`. -/

/-- A dynamic Go value (`interface{}`) as dispatched by `bindParams`:
the supported scalar kinds, a pointer (possibly `nil`) to a value, the `nil`
interface, and a catch-all for every other dynamic type (carrying its type
name, as printed by the `%T` verb). -/
inductive GoValue where
  | str (s : String)
  | int (n : Int)
  | float (x : Float)
  | bool (b : Bool)
  | bytes (bs : List UInt8)
  | ptr (v : Option GoValue)
  | nil
  | unsupported (typeName : String)

/-- A Go `map[string]interface{}`, modelled as an association list. -/
abbrev ParamMap := List (String × GoValue)

/-- Lookup `value, exists := params[name]` on the association-list model. -/
def lookupParam (ps : ParamMap) (name : String) : Option GoValue :=
  match ps.find? (fun kv => kv.1 == name) with
  | some kv => some kv.2
  | none => none

/-- A decoded result row, as produced by `readRow` and handed to the
caller-supplied `resultFunc`. -/
abbrev RowMap := List (String × GoValue)

/-! ## Statement executor (`exec/exec.go`) -/

/-- The behaviour of the external SQLite engine on ordinary SQL statements,
together with the possible failure of the two transaction control points.
`execStmt stmt params db` is the combined effect of
prepare/bind/step-to-completion for one statement on database state `db`:
either an error (from prepare or any step) or the new state together with
the rows produced.  `commitErr`/`rollbackErr` inject a failure into
`COMMIT;` / `ROLLBACK;` (`none` = the control statement succeeds). -/
structure Engine (σ : Type) where
  execStmt : String → Option ParamMap → σ → Except String (σ × List RowMap)
  commitErr : Option String
  rollbackErr : Option String

/-- One pooled connection: its view of the database and, when a transaction
is open, the state the database had when `BEGIN TRANSACTION;` ran (SQLite
restores exactly that state on `ROLLBACK;`). -/
structure Conn (σ : Type) where
  db : σ
  txSnapshot : Option σ

/-- Transcription of `executeRawStatement` from `exec/exec.go`, specialised to the documented
SQLite semantics of the three control statements the executor issues.
A nested `BEGIN`, or a `COMMIT`/`ROLLBACK` with no open transaction, is an
ordinary statement error; `COMMIT` and `ROLLBACK` may also fail per the
engine oracle, in which case the connection state is unchanged (the
transaction stays open). -/
def executeRawStatement {σ : Type} (eng : Engine σ) (conn : Conn σ) (statement : String) :
    Except String (Conn σ) :=
  if statement = "BEGIN TRANSACTION;" then
    match conn.txSnapshot with
    | some _ => .error "cannot start a transaction within a transaction"
    | none => .ok { conn with txSnapshot := some conn.db }
  else if statement = "COMMIT;" then
    match conn.txSnapshot with
    | none => .error "cannot commit - no transaction is active"
    | some _ =>
      match eng.commitErr with
      | some e => .error e
      | none => .ok { db := conn.db, txSnapshot := none }
  else if statement = "ROLLBACK;" then
    match conn.txSnapshot with
    | none => .error "cannot rollback - no transaction is active"
    | some s =>
      match eng.rollbackErr with
      | some e => .error e
      | none => .ok { db := s, txSnapshot := none }
  else
    match eng.execStmt statement none conn.db with
    | .error e => .error e
    | .ok (db1, _) => .ok { conn with db := db1 }

/-- The whitespace characters trimmed by `strings.TrimSpace` in the ASCII
range (space, tab, newline, vertical tab, form feed, carriage return); the
non-ASCII Unicode space characters it also trims are outside this model. -/
def goIsSpace (c : Char) : Bool :=
  c = ' ' || c = '\t' || c = '\n' || c.toNat = 11 || c.toNat = 12 || c = '\r'

/-- Transcription of `trimQuery` from `exec/exec.go`: `strings.TrimSpace`, then
`strings.TrimSuffix` of a single trailing semicolon.  Both are modelled on
the character list of the string; a trailing semicolon is detected and
removed on the reversed trimmed list. -/
def trimQuery (query : String) : String :=
  let rev := (query.data.dropWhile goIsSpace).reverse.dropWhile goIsSpace
  match rev with
  | ';' :: rest => String.mk rest.reverse
  | _ => String.mk rev.reverse

/-- Result of the shared statement loop of `ExecMulti`/`ExecMultiTx`:
the first failure (zero-based statement index and underlying error) if any,
the database state reached, and the `(statementIndex, row)` callback
invocations made.  A statement that fails contributes no rows. -/
structure LoopResult (σ : Type) where
  failure : Option (Nat × String)
  db : σ
  calls : List (Nat × RowMap)

/-- The `for i, query := range queries` loop shared by `ExecMulti` and
`ExecMultiTx`: skip statements that trim to empty, otherwise run
`executeSingleStatement` (prepare, bind, step, per-row callback) and stop at
the first failure.  `idx` is the index of the first statement in the
remaining list. -/
def execLoop {σ : Type} (eng : Engine σ) (db : σ) (idx : Nat) :
    List (String × Option ParamMap) → LoopResult σ
  | [] => ⟨none, db, []⟩
  | (query, ps) :: rest =>
    let tq := trimQuery query
    if tq = "" then execLoop eng db (idx + 1) rest
    else
      match eng.execStmt tq ps db with
      | .error e => ⟨some (idx, e), db, []⟩
      | .ok (db1, rows) =>
        let r := execLoop eng db1 (idx + 1) rest
        ⟨r.failure, r.db, rows.map (fun row => (idx, row)) ++ r.calls⟩

/-- The database state after running the *successful* prefix of a statement
list outside any transaction: blank statements are skipped, a failing
statement leaves the state as it was.  `ExecMulti` commits each statement as
it goes (autocommit), so this is what remains visible after a mid-script
failure. -/
def applyStmts {σ : Type} (eng : Engine σ) (db : σ) :
    List (String × Option ParamMap) → σ
  | [] => db
  | (query, ps) :: rest =>
    let tq := trimQuery query
    if tq = "" then applyStmts eng db rest
    else
      match eng.execStmt tq ps db with
      | .error _ => db
      | .ok (db1, _) => applyStmts eng db1 rest

/-- The observable outcome of one `ExecMulti`/`ExecMultiTx` call: the error
returned (or `none`), the database state visible on the connection
afterwards, the row-callback invocations, the lines printed to standard
output, whether `pool.GetPool` was reached, whether a connection was taken
(and, by `defer pool.Put`, returned), and the raw control statements issued
through `executeRawStatement`, in order. -/
structure ExecOutcome (σ : Type) where
  err : Option String
  db : σ
  calls : List (Nat × RowMap)
  printed : List String
  poolObtained : Bool
  connTaken : Bool
  raws : List String

/-- The pool-facing environment of an executor call: possible failures of
`pool.GetPool()` and `pool.Take(ctx)`, and the engine behaviour. -/
structure ExecEnv (σ : Type) where
  getPoolErr : Option String
  takeErr : Option String
  engine : Engine σ

/-- The shape-mismatch error of `ExecMulti`/`ExecMultiTx`. -/
def shapeMismatchError (nq np : Nat) : String :=
  s!"the number of queries ({nq}) does not match the number of params ({np})"

/-- The statement-failure wrapper of `ExecMulti`/`ExecMultiTx` (`k` is the
1-based statement index). -/
def statementError (k : Nat) (e : String) : String :=
  s!"error executing statement {k}: {e}"

/-- The line `ExecMultiTx` prints when the deferred `ROLLBACK;` fails. -/
def rollbackFailedMsg (e : String) : String :=
  s!"failed to rollback transaction: {e}"

/-- Transcription of `ExecMulti` from `exec/exec.go`: shape check, obtain the pool, take a
connection, then run each non-blank statement in autocommit mode, stopping
at the first failure. -/
def ExecMulti {σ : Type} (env : ExecEnv σ) (db : σ) (queries : List String)
    (params : List (Option ParamMap)) : ExecOutcome σ :=
  if queries.length ≠ params.length then
    { err := some (shapeMismatchError queries.length params.length), db := db,
      calls := [], printed := [], poolObtained := false, connTaken := false, raws := [] }
  else
    match env.getPoolErr with
    | some e =>
      { err := some ("failed to create database pool: " ++ e), db := db,
        calls := [], printed := [], poolObtained := true, connTaken := false, raws := [] }
    | none =>
      match env.takeErr with
      | some e =>
        { err := some ("failed to obtain database connection: " ++ e), db := db,
          calls := [], printed := [], poolObtained := true, connTaken := false, raws := [] }
      | none =>
        let r := execLoop env.engine db 0 (queries.zip params)
        match r.failure with
        | some (i, e) =>
          { err := some (statementError (i + 1) e), db := r.db, calls := r.calls,
            printed := [], poolObtained := true, connTaken := true, raws := [] }
        | none =>
          { err := none, db := r.db, calls := r.calls,
            printed := [], poolObtained := true, connTaken := true, raws := [] }

/-- The deferred cleanup of `ExecMultiTx`: when the call did not commit, run
`ROLLBACK;`; if the rollback itself fails, print the failure and keep the
connection state as it was. -/
def runDeferredRollback {σ : Type} (eng : Engine σ) (conn : Conn σ) :
    Conn σ × List String :=
  match executeRawStatement eng conn "ROLLBACK;" with
  | .error re => (conn, [rollbackFailedMsg re])
  | .ok conn1 => (conn1, [])

/-- Transcription of `ExecMultiTx` from `exec/exec.go`: shape check, obtain the pool, take a
connection, `BEGIN TRANSACTION;`, run the statement loop, and `COMMIT;`;
any statement or commit failure triggers the deferred `ROLLBACK;` before the
original error is returned. -/
def ExecMultiTx {σ : Type} (env : ExecEnv σ) (db : σ) (queries : List String)
    (params : List (Option ParamMap)) : ExecOutcome σ :=
  if queries.length ≠ params.length then
    { err := some (shapeMismatchError queries.length params.length), db := db,
      calls := [], printed := [], poolObtained := false, connTaken := false, raws := [] }
  else
    match env.getPoolErr with
    | some e =>
      { err := some ("failed to create database pool: " ++ e), db := db,
        calls := [], printed := [], poolObtained := true, connTaken := false, raws := [] }
    | none =>
      match env.takeErr with
      | some e =>
        { err := some ("failed to obtain database connection: " ++ e), db := db,
          calls := [], printed := [], poolObtained := true, connTaken := false, raws := [] }
      | none =>
        let conn0 : Conn σ := { db := db, txSnapshot := none }
        match executeRawStatement env.engine conn0 "BEGIN TRANSACTION;" with
        | .error e =>
          { err := some ("failed to begin transaction: " ++ e), db := db,
            calls := [], printed := [], poolObtained := true, connTaken := true,
            raws := ["BEGIN TRANSACTION;"] }
        | .ok conn1 =>
          let r := execLoop env.engine conn1.db 0 (queries.zip params)
          match r.failure with
          | some (i, e) =>
            let cleanup := runDeferredRollback env.engine { conn1 with db := r.db }
            { err := some (statementError (i + 1) e), db := cleanup.1.db,
              calls := r.calls, printed := cleanup.2, poolObtained := true,
              connTaken := true, raws := ["BEGIN TRANSACTION;", "ROLLBACK;"] }
          | none =>
            match executeRawStatement env.engine { conn1 with db := r.db } "COMMIT;" with
            | .error e =>
              let cleanup := runDeferredRollback env.engine { conn1 with db := r.db }
              { err := some ("failed to commit transaction: " ++ e), db := cleanup.1.db,
                calls := r.calls, printed := cleanup.2, poolObtained := true,
                connTaken := true, raws := ["BEGIN TRANSACTION;", "COMMIT;", "ROLLBACK;"] }
            | .ok conn2 =>
              { err := none, db := conn2.db, calls := r.calls, printed := [],
                poolObtained := true, connTaken := true,
                raws := ["BEGIN TRANSACTION;", "COMMIT;"] }

/-! ## Executor lemmas and theorems -/

/-- The statement loop on a list whose every entry trims to the empty string
touches nothing: no failure, no state change, no callback invocations. -/
theorem execLoop_all_blank {σ : Type} (eng : Engine σ) :
    ∀ (l : List (String × Option ParamMap)) (db : σ) (i : Nat),
      (∀ p ∈ l, trimQuery p.1 = "") → execLoop eng db i l = ⟨none, db, []⟩ := by
  intro l
  induction l with
  | nil => intro db i _; rfl
  | cons hd tl ih =>
    intro db i hall
    obtain ⟨q, ps⟩ := hd
    have hq : trimQuery q = "" := hall (q, ps) (List.mem_cons_self _ _)
    have htl : ∀ p ∈ tl, trimQuery p.1 = "" := fun p hp => hall p (List.mem_cons_of_mem _ hp)
    simp only [execLoop, hq, if_pos]
    exact ih db (i + 1) htl

/-- When the statement loop started at index `i` fails at absolute index `k`,
then `i ≤ k` and the state it leaves behind is exactly the effect of the
(successful) statements strictly before position `k - i` of the list. -/
theorem execLoop_failure_prefix {σ : Type} (eng : Engine σ) :
    ∀ (l : List (String × Option ParamMap)) (db : σ) (i k : Nat) (e : String),
      (execLoop eng db i l).failure = some (k, e) →
      i ≤ k ∧ (execLoop eng db i l).db = applyStmts eng db (l.take (k - i)) := by
  intro l
  induction l with
  | nil => intro db i k e h; simp [execLoop] at h
  | cons hd tl ih =>
    intro db i k e h
    obtain ⟨q, ps⟩ := hd
    by_cases hq : trimQuery q = ""
    · simp only [execLoop, hq, if_pos] at h ⊢
      obtain ⟨hik, hdb⟩ := ih db (i + 1) k e h
      refine ⟨by omega, ?_⟩
      have hki : k - i = (k - (i + 1)) + 1 := by omega
      rw [hki, List.take_succ_cons]
      simp only [applyStmts, hq, if_pos]
      exact hdb
    · cases hstep : eng.execStmt (trimQuery q) ps db with
      | error e1 =>
        simp only [execLoop, if_neg hq, hstep] at h ⊢
        simp only [Option.some.injEq, Prod.mk.injEq] at h
        obtain ⟨hk, _⟩ := h
        subst hk
        simp [applyStmts]
      | ok pr =>
        obtain ⟨db1, rows⟩ := pr
        simp only [execLoop, if_neg hq, hstep] at h ⊢
        obtain ⟨hik, hdb⟩ := ih db1 (i + 1) k e h
        refine ⟨by omega, ?_⟩
        have hki : k - i = (k - (i + 1)) + 1 := by omega
        rw [hki, List.take_succ_cons]
        simp only [applyStmts, if_neg hq, hstep]
        exact hdb

/-- C6: when the statement and parameter-set lists have different lengths,
both `ExecMulti` and `ExecMultiTx` return the shape-mismatch error
immediately: the pool is never obtained, no connection is taken, no control
statement is issued, and the database is untouched. -/
theorem exec_shape_mismatch_fails_fast {σ : Type} (env : ExecEnv σ) (db : σ)
    (queries : List String) (params : List (Option ParamMap))
    (h : queries.length ≠ params.length) :
    ExecMulti env db queries params =
      { err := some (shapeMismatchError queries.length params.length), db := db,
        calls := [], printed := [], poolObtained := false, connTaken := false,
        raws := [] } ∧
    ExecMultiTx env db queries params =
      { err := some (shapeMismatchError queries.length params.length), db := db,
        calls := [], printed := [], poolObtained := false, connTaken := false,
        raws := [] } := by
  constructor <;> simp [ExecMulti, ExecMultiTx, h]

/-- An engine on a counter database: any statement other than `FAIL` bumps
the counter; `FAIL` is a statement error. -/
def natEngine : Engine Nat where
  execStmt q _ db := if q = "FAIL" then .error "constraint failed" else .ok (db + 1, [])
  commitErr := none
  rollbackErr := none

/-- Executor environment with a healthy pool over `natEngine`. -/
def natEnv : ExecEnv Nat where
  getPoolErr := none
  takeErr := none
  engine := natEngine

theorem exec_shape_mismatch_fails_fast_check :
    ExecMulti natEnv 7 ["SELECT 1;"] [] =
      { err := some (shapeMismatchError 1 0), db := 7, calls := [], printed := [],
        poolObtained := false, connTaken := false, raws := [] } ∧
    ExecMultiTx natEnv 7 ["SELECT 1;"] [] =
      { err := some (shapeMismatchError 1 0), db := 7, calls := [], printed := [],
        poolObtained := false, connTaken := false, raws := [] } :=
  exec_shape_mismatch_fails_fast natEnv 7 ["SELECT 1;"] [] (by decide)

/-- C7: a statement that trims to the empty string is skipped by the shared
statement loop — no error, no row callback, no state change — and a call in
which *every* statement is blank succeeds: `ExecMulti` returns no error and
makes no callback, and `ExecMultiTx` additionally still issues the
`BEGIN TRANSACTION;` / `COMMIT;` pair of a no-op transaction. -/
theorem blank_statements_skipped {σ : Type} (env : ExecEnv σ) (eng : Engine σ)
    (db db2 : σ) (i : Nat) (query : String) (ps : Option ParamMap)
    (rest : List (String × Option ParamMap))
    (queries : List String) (params : List (Option ParamMap))
    (hq : trimQuery query = "")
    (hall : ∀ q ∈ queries, trimQuery q = "")
    (hlen : queries.length = params.length)
    (hpool : env.getPoolErr = none) (htake : env.takeErr = none)
    (hcommit : env.engine.commitErr = none) :
    execLoop eng db2 i ((query, ps) :: rest) = execLoop eng db2 (i + 1) rest ∧
    (ExecMulti env db queries params).err = none ∧
    (ExecMulti env db queries params).calls = [] ∧
    (ExecMulti env db queries params).db = db ∧
    (ExecMultiTx env db queries params).err = none ∧
    (ExecMultiTx env db queries params).calls = [] ∧
    (ExecMultiTx env db queries params).db = db ∧
    (ExecMultiTx env db queries params).raws = ["BEGIN TRANSACTION;", "COMMIT;"] := by
  have hzip : ∀ p ∈ queries.zip params, trimQuery p.1 = "" := by
    intro p hp
    exact hall p.1 (List.of_mem_zip hp).1
  have hloop := execLoop_all_blank env.engine (queries.zip params) db 0 hzip
  refine ⟨by simp [execLoop, hq], ?_, ?_, ?_, ?_, ?_, ?_, ?_⟩ <;>
    simp [ExecMulti, ExecMultiTx, executeRawStatement, hlen, hpool, htake, hloop, hcommit]

theorem blank_statements_skipped_check :
    execLoop natEngine 5 0 [("  ;", none), ("", none)] = execLoop natEngine 5 1 [("", none)] ∧
    (ExecMulti natEnv 5 ["  ;", "", " \n "] [none, none, none]).err = none ∧
    (ExecMulti natEnv 5 ["  ;", "", " \n "] [none, none, none]).calls = [] ∧
    (ExecMulti natEnv 5 ["  ;", "", " \n "] [none, none, none]).db = 5 ∧
    (ExecMultiTx natEnv 5 ["  ;", "", " \n "] [none, none, none]).err = none ∧
    (ExecMultiTx natEnv 5 ["  ;", "", " \n "] [none, none, none]).calls = [] ∧
    (ExecMultiTx natEnv 5 ["  ;", "", " \n "] [none, none, none]).db = 5 ∧
    (ExecMultiTx natEnv 5 ["  ;", "", " \n "] [none, none, none]).raws =
      ["BEGIN TRANSACTION;", "COMMIT;"] :=
  blank_statements_skipped natEnv natEngine 5 5 0 "  ;" none [("", none)]
    ["  ;", "", " \n "] [none, none, none] (by decide) (by decide) rfl rfl rfl rfl

/-- C1: whenever a statement of `ExecMultiTx` fails, or the final `COMMIT;`
fails, the returned error is the wrapped original statement or commit error
(never a rollback error); when the deferred `ROLLBACK;` succeeds the
database is exactly as before the call (no effect of any statement is
observable) and nothing is printed; when the `ROLLBACK;` itself fails, the
failure is printed while the returned error is still the original one. -/
theorem execMultiTx_rollback_on_failure {σ : Type} (env : ExecEnv σ) (db : σ)
    (queries : List String) (params : List (Option ParamMap))
    (hlen : queries.length = params.length)
    (hpool : env.getPoolErr = none) (htake : env.takeErr = none)
    (hfail : (execLoop env.engine db 0 (queries.zip params)).failure.isSome = true ∨
             env.engine.commitErr.isSome = true) :
    (∀ i e, (execLoop env.engine db 0 (queries.zip params)).failure = some (i, e) →
        (ExecMultiTx env db queries params).err = some (statementError (i + 1) e)) ∧
    (∀ ce, (execLoop env.engine db 0 (queries.zip params)).failure = none →
        env.engine.commitErr = some ce →
        (ExecMultiTx env db queries params).err =
          some ("failed to commit transaction: " ++ ce)) ∧
    (env.engine.rollbackErr = none →
        (ExecMultiTx env db queries params).db = db ∧
        (ExecMultiTx env db queries params).printed = []) ∧
    (∀ re, env.engine.rollbackErr = some re →
        rollbackFailedMsg re ∈ (ExecMultiTx env db queries params).printed) := by
  refine ⟨?_, ?_, ?_, ?_⟩
  · intro i e hf
    simp [ExecMultiTx, executeRawStatement, hlen, hpool, htake, hf]
  · intro ce hf hc
    simp [ExecMultiTx, executeRawStatement, hlen, hpool, htake, hf, hc]
  · intro hr
    rcases hfr : (execLoop env.engine db 0 (queries.zip params)).failure with _ | ⟨i, e⟩
    · rcases hfail with hs | hs
      · rw [hfr] at hs; simp at hs
      · obtain ⟨ce, hc⟩ := Option.isSome_iff_exists.mp hs
        constructor <;>
          simp [ExecMultiTx, executeRawStatement, runDeferredRollback,
            hlen, hpool, htake, hfr, hc, hr]
    · constructor <;>
        simp [ExecMultiTx, executeRawStatement, runDeferredRollback,
          hlen, hpool, htake, hfr, hr]
  · intro re hr
    rcases hfr : (execLoop env.engine db 0 (queries.zip params)).failure with _ | ⟨i, e⟩
    · rcases hfail with hs | hs
      · rw [hfr] at hs; simp at hs
      · obtain ⟨ce, hc⟩ := Option.isSome_iff_exists.mp hs
        simp [ExecMultiTx, executeRawStatement, runDeferredRollback,
          hlen, hpool, htake, hfr, hc, hr]
    · simp [ExecMultiTx, executeRawStatement, runDeferredRollback,
        hlen, hpool, htake, hfr, hr]

theorem execMultiTx_rollback_on_failure_check :
    (ExecMultiTx natEnv 0 ["STEP;", "FAIL;"] [none, none]).err =
        some (statementError 2 "constraint failed") ∧
    (ExecMultiTx natEnv 0 ["STEP;", "FAIL;"] [none, none]).db = 0 ∧
    (ExecMultiTx natEnv 0 ["STEP;", "FAIL;"] [none, none]).printed = [] := by
  have h := execMultiTx_rollback_on_failure natEnv 0 ["STEP;", "FAIL;"] [none, none]
    rfl rfl rfl (Or.inl (by decide))
  exact ⟨h.1 1 "constraint failed" (by decide), (h.2.2.1 rfl).1, (h.2.2.1 rfl).2⟩

/-- C10: when statement `k` (1-based `k + 1`) of a non-transactional
`ExecMulti` call fails, the call returns an error naming statement `k + 1`,
issues no `ROLLBACK;` (nor any other control statement), and the database
retains exactly the effects of the successfully executed statements before
`k` — each ran in autocommit mode and stays committed. -/
theorem execMulti_autocommit_keeps_prefix {σ : Type} (env : ExecEnv σ) (db : σ)
    (queries : List String) (params : List (Option ParamMap)) (k : Nat) (e : String)
    (hlen : queries.length = params.length)
    (hpool : env.getPoolErr = none) (htake : env.takeErr = none)
    (hfail : (execLoop env.engine db 0 (queries.zip params)).failure = some (k, e)) :
    (ExecMulti env db queries params).err = some (statementError (k + 1) e) ∧
    (ExecMulti env db queries params).db =
      applyStmts env.engine db ((queries.zip params).take k) ∧
    (ExecMulti env db queries params).raws = [] := by
  have hpre := execLoop_failure_prefix env.engine (queries.zip params) db 0 k e hfail
  refine ⟨?_, ?_, ?_⟩
  · simp [ExecMulti, hlen, hpool, htake, hfail]
  · simp only [ExecMulti, hlen, hpool, htake, hfail]
    simpa using hpre.2
  · simp [ExecMulti, hlen, hpool, htake, hfail]

theorem execMulti_autocommit_keeps_prefix_check :
    (ExecMulti natEnv 0 ["STEP;", "FAIL;", "STEP;"] [none, none, none]).err =
        some (statementError 2 "constraint failed") ∧
    (ExecMulti natEnv 0 ["STEP;", "FAIL;", "STEP;"] [none, none, none]).db = 1 ∧
    (ExecMulti natEnv 0 ["STEP;", "FAIL;", "STEP;"] [none, none, none]).raws = [] := by
  have h := execMulti_autocommit_keeps_prefix natEnv 0 ["STEP;", "FAIL;", "STEP;"]
    [none, none, none] 1 "constraint failed" rfl rfl rfl (by decide)
  exact ⟨h.1, h.2.1.trans (by decide), h.2.2⟩

/-! ## Blob streaming (`exec/blob.go` and the streaming-insert file)

The blob helpers address one `(table, column)` pair per call; the model
tracks that column of the table as rowid/cell pairs.  `zeroblob(n)` and
incremental blob I/O follow the documented SQLite semantics: a zeroblob is
`n` zero bytes (empty for negative `n`), a handle write replaces bytes in
place and can never change the cell size, and opening a handle on a missing
row fails. -/

/-- The blob-relevant view of one table: each row is its rowid paired with
the blob cell, plus the rowid counter and the value of
`last_insert_rowid()` on the connection. -/
structure BlobDB where
  rows : List (Int × List UInt8)
  nextId : Int
  lastId : Int
deriving DecidableEq, Repr

/-- The effect of the built statement
`INSERT INTO table (column, ...) VALUES (zeroblob(:blob_size), ...)`:
a fresh row whose cell is `size` zero bytes.  The extra columns carry no
blob data and are outside the model, as is a constraint failure of the
insert. -/
def insertZeroblobRow (db : BlobDB) (size : Int) : BlobDB :=
  { rows := db.rows ++ [(db.nextId, List.replicate size.toNat 0)],
    nextId := db.nextId + 1, lastId := db.nextId }

/-- Model of the `conn.OpenBlob` target lookup; `none` is the row-not-found failure of
the handle open. -/
def lookupBlob (db : BlobDB) (rowID : Int) : Option (List UInt8) :=
  match db.rows.find? (fun r => r.1 == rowID) with
  | some r => some r.2
  | none => none

/-- Replace the cell addressed by `rowID` with `cell` (writes through an
open handle change bytes in place). -/
def updateBlob (db : BlobDB) (rowID : Int) (cell : List UInt8) : BlobDB :=
  { db with rows := db.rows.map (fun r => if r.1 == rowID then (r.1, cell) else r) }

/-- Pool-facing environment of the blob helpers: possible failures of
`pool.GetPool()` and `p.Take(ctx)`. -/
structure BlobEnv where
  getPoolErr : Option String
  takeErr : Option String

/-- Transcription of `CreateBlob` from `exec/blob.go`: obtain the pool, take a connection,
run the zeroblob insert built from `table`/`column`/`extraCols`, and return
`last_insert_rowid()` with the new state. -/
def CreateBlob (env : BlobEnv) (db : BlobDB) (size : Int) (extraCols : ParamMap) :
    Except String (Int × BlobDB) :=
  match env.getPoolErr with
  | some e => .error e
  | none =>
    match env.takeErr with
    | some e => .error e
    | none =>
      let db1 := insertZeroblobRow db size
      .ok (db1.lastId, db1)

/-- Transcription of `WriteBlobChunk` from `exec/blob.go`: open a writable handle (row not
found fails the open), seek to `offset`, and write `data`.  A negative or
out-of-range seek offset is a seek error; a write running past the end of
the cell is an engine error (incremental blob I/O cannot grow a cell).  A
successful write accepts every byte, so the short-write check of the code
passes. -/
def WriteBlobChunk (env : BlobEnv) (db : BlobDB) (rowID : Int) (offset : Int)
    (data : List UInt8) : Except String BlobDB :=
  match env.getPoolErr with
  | some e => .error e
  | none =>
    match env.takeErr with
    | some e => .error e
    | none =>
      match lookupBlob db rowID with
      | none => .error "open blob handle failed: no such row"
      | some cell =>
        if offset < 0 ∨ (cell.length : Int) < offset then .error "blob seek error"
        else if offset.toNat + data.length ≤ cell.length then
          .ok (updateBlob db rowID
            (cell.take offset.toNat ++ data ++ cell.drop (offset.toNat + data.length)))
        else .error "blob write error: write past end of blob"

/-- Transcription of `StreamReadBlob`: open a read-only handle (row not found fails the
open), seek to `offset` when it is positive, then copy `length` bytes — the
whole remainder when `length` is negative (`io.Copy`), at most `length`
otherwise (`io.LimitReader`) — returning the byte count together with the
bytes delivered to the sink. -/
def StreamReadBlob (env : BlobEnv) (db : BlobDB) (rowID : Int) (offset : Int)
    (length : Int) : Except String (Int × List UInt8) :=
  match env.getPoolErr with
  | some e => .error e
  | none =>
    match env.takeErr with
    | some e => .error e
    | none =>
      match lookupBlob db rowID with
      | none => .error "open blob handle failed: no such row"
      | some cell =>
        if offset > 0 ∧ (cell.length : Int) < offset then .error "seek failed"
        else
          let rest := if offset > 0 then cell.drop offset.toNat else cell
          if length < 0 then .ok ((rest.length : Int), rest)
          else .ok (((rest.take length.toNat).length : Int), rest.take length.toNat)

/-- Transcription of `StreamInsertBlob` from the streaming-insert file: take a connection,
begin a transaction (the state at that point is what `ROLLBACK;` restores),
run the zeroblob insert, read `last_insert_rowid()`, open a writable handle
on the new row, `io.Copy` the source `r` into the blob — a source longer
than the cell fails the copy with a write-past-end error, a shorter source
just ends with a short count — then require the copied count to equal
`size` exactly, close the handle and commit.  Every failure path returns a
zero rowid and an error after the deferred rollback (whose own error the
code discards). -/
def StreamInsertBlob (env : BlobEnv) (commitErr : Option String) (db : BlobDB)
    (size : Int) (r : List UInt8) (extraCols : ParamMap) :
    (Int × Option String) × BlobDB :=
  match env.getPoolErr with
  | some e => ((0, some e), db)
  | none =>
    match env.takeErr with
    | some e => ((0, some e), db)
    | none =>
      let snapshot := db
      let db1 := insertZeroblobRow db size
      let rowID := db1.lastId
      match lookupBlob db1 rowID with
      | none => ((0, some "open blob handle failed"), snapshot)
      | some cell =>
        if r.length ≤ cell.length then
          let written := r.length
          let db2 := updateBlob db1 rowID (r ++ cell.drop r.length)
          if (written : Int) ≠ size then
            ((0, some s!"only wrote {written} bytes, expected {size}"), snapshot)
          else
            match commitErr with
            | some e => ((0, some ("commit failed: " ++ e)), snapshot)
            | none => ((rowID, none), db2)
        else
          ((0, some "failed to copy into blob: write past end of blob"), snapshot)

/-! ## Blob lemmas and theorems -/

/-- Looking up the row just inserted by the zeroblob insert yields its
zero-filled cell, provided the db satisfies the rowid-freshness invariant
(no existing row uses `nextId`). -/
theorem lookupBlob_insertZeroblobRow (db : BlobDB) (size : Int)
    (hfresh : ∀ p ∈ db.rows, p.1 ≠ db.nextId) :
    lookupBlob (insertZeroblobRow db size) db.nextId =
      some (List.replicate size.toNat 0) := by
  have hnone : db.rows.find? (fun r => r.1 == db.nextId) = none := by
    rw [List.find?_eq_none]
    intro p hp
    simpa using hfresh p hp
  simp [lookupBlob, insertZeroblobRow, List.find?_append, hnone]

/-- In-place replacement of the first row matching `rowID`: after the map,
`find?` returns that rowid with the new cell, provided a match existed. -/
theorem find?_map_replace (rowID : Int) (newCell : List UInt8) :
    ∀ l : List (Int × List UInt8),
      (l.find? (fun r => r.1 == rowID)).isSome = true →
      (l.map (fun r => if r.1 == rowID then (r.1, newCell) else r)).find?
          (fun r => r.1 == rowID) = some (rowID, newCell) := by
  intro l
  induction l with
  | nil => intro h; simp at h
  | cons hd tl ih =>
    intro h
    obtain ⟨a, b⟩ := hd
    by_cases hab : a = rowID
    · subst hab
      simp
    · have hne : (a == rowID) = false := by simp [hab]
      rw [List.find?_cons_of_neg _ (by simp [hne])] at h
      simp only [List.map_cons, hne, Bool.false_eq_true, if_false]
      rw [List.find?_cons_of_neg _ (by simp [hne])]
      exact ih h

/-- Replacing the cell of a row that is present makes a subsequent lookup
return the new cell. -/
theorem lookupBlob_updateBlob (db : BlobDB) (rowID : Int)
    (cell newCell : List UInt8) (h : lookupBlob db rowID = some cell) :
    lookupBlob (updateBlob db rowID newCell) rowID = some newCell := by
  have hsome : (db.rows.find? (fun r => r.1 == rowID)).isSome = true := by
    unfold lookupBlob at h
    cases hf : db.rows.find? (fun r => r.1 == rowID) with
    | none => rw [hf] at h; simp at h
    | some p => simp
  simp only [lookupBlob, updateBlob]
  rw [find?_map_replace rowID newCell db.rows hsome]

/-- A blob environment with a healthy pool. -/
def okBlobEnv : BlobEnv where
  getPoolErr := none
  takeErr := none

/-- C4: creating a blob of declared size `size` (a fresh row with a
zero-filled cell), then writing only `data` — fewer than `size` bytes — at
offset `0`, leaves a cell equal to `data` followed by zeros, and a
subsequent `StreamReadBlob` of the full range (offset 0, negative length)
succeeds, reports `size` bytes copied, and delivers exactly the written
bytes followed by `size - data.length` zero bytes; reading the unwritten
tail is not an error. -/
theorem blob_zero_fill_roundtrip (env : BlobEnv) (db : BlobDB) (size : Int)
    (data : List UInt8) (extraCols : ParamMap)
    (hpool : env.getPoolErr = none) (htake : env.takeErr = none)
    (hfresh : ∀ p ∈ db.rows, p.1 ≠ db.nextId)
    (hlt : (data.length : Int) < size) :
    CreateBlob env db size extraCols = .ok (db.nextId, insertZeroblobRow db size) ∧
    WriteBlobChunk env (insertZeroblobRow db size) db.nextId 0 data =
      .ok (updateBlob (insertZeroblobRow db size) db.nextId
            (data ++ List.replicate (size.toNat - data.length) 0)) ∧
    StreamReadBlob env
        (updateBlob (insertZeroblobRow db size) db.nextId
          (data ++ List.replicate (size.toNat - data.length) 0))
        db.nextId 0 (-1) =
      .ok (size, data ++ List.replicate (size.toNat - data.length) 0) := by
  have hsize : 0 < size := lt_of_le_of_lt (Int.ofNat_nonneg data.length) hlt
  have hlen : data.length < size.toNat := by omega
  have hlook := lookupBlob_insertZeroblobRow db size hfresh
  refine ⟨?_, ?_, ?_⟩
  · simp [CreateBlob, hpool, htake, insertZeroblobRow]
  · have hbound : (0 : Int).toNat + data.length ≤ (List.replicate size.toNat (0 : UInt8)).length := by
      simp; omega
    simp only [WriteBlobChunk, hpool, htake, hlook]
    rw [if_neg (by simp), if_pos hbound]
    simp [List.drop_replicate]
  · have hlook2 : lookupBlob
        (updateBlob (insertZeroblobRow db size) db.nextId
          (data ++ List.replicate (size.toNat - data.length) 0))
        db.nextId = some (data ++ List.replicate (size.toNat - data.length) 0) :=
      lookupBlob_updateBlob _ _ _ _ hlook
    have hlen2 : (((data ++ List.replicate (size.toNat - data.length) (0 : UInt8)).length : Nat) : Int)
        = size := by
      simp only [List.length_append, List.length_replicate]
      omega
    simp only [StreamReadBlob, hpool, htake, hlook2]
    rw [if_neg (by simp)]
    simp only [if_neg (by omega : ¬ ((0 : Int) > 0))]
    rw [if_pos (by omega : (-1 : Int) < 0), hlen2]

theorem blob_zero_fill_roundtrip_check :
    CreateBlob okBlobEnv ⟨[], 1, 0⟩ 4 [] = .ok (1, insertZeroblobRow ⟨[], 1, 0⟩ 4) ∧
    WriteBlobChunk okBlobEnv (insertZeroblobRow ⟨[], 1, 0⟩ 4) 1 0 [17, 34] =
      .ok (updateBlob (insertZeroblobRow ⟨[], 1, 0⟩ 4) 1
            ([17, 34] ++ List.replicate ((4 : Int).toNat - 2) 0)) ∧
    StreamReadBlob okBlobEnv
        (updateBlob (insertZeroblobRow ⟨[], 1, 0⟩ 4) 1
          ([17, 34] ++ List.replicate ((4 : Int).toNat - 2) 0)) 1 0 (-1) =
      .ok (4, [17, 34] ++ List.replicate ((4 : Int).toNat - 2) 0) :=
  blob_zero_fill_roundtrip okBlobEnv ⟨[], 1, 0⟩ 4 [17, 34] [] rfl rfl
    (by simp) (by decide)

/-- C5: whenever the byte count of the source differs from the declared
size — shorter or longer — `StreamInsertBlob` returns a zero row identifier
together with an error, and the deferred rollback leaves the database
exactly as before the call: no inserted row is observable. -/
theorem streamInsertBlob_size_mismatch_rejected (env : BlobEnv)
    (commitErr : Option String) (db : BlobDB) (size : Int) (r : List UInt8)
    (extraCols : ParamMap)
    (hpool : env.getPoolErr = none) (htake : env.takeErr = none)
    (hfresh : ∀ p ∈ db.rows, p.1 ≠ db.nextId)
    (hne : (r.length : Int) ≠ size) :
    (StreamInsertBlob env commitErr db size r extraCols).1.1 = 0 ∧
    (StreamInsertBlob env commitErr db size r extraCols).1.2.isSome = true ∧
    (StreamInsertBlob env commitErr db size r extraCols).2 = db := by
  have hlook := lookupBlob_insertZeroblobRow db size hfresh
  have hlast : (insertZeroblobRow db size).lastId = db.nextId := rfl
  by_cases hle : r.length ≤ size.toNat
  · refine ⟨?_, ?_, ?_⟩ <;>
      simp [StreamInsertBlob, hpool, htake, hlast, hlook, hle, hne]
  · refine ⟨?_, ?_, ?_⟩ <;>
      simp [StreamInsertBlob, hpool, htake, hlast, hlook, hle]

theorem streamInsertBlob_size_mismatch_rejected_check :
    (StreamInsertBlob okBlobEnv none ⟨[], 1, 0⟩ 4 [17, 34] []).1.1 = 0 ∧
    (StreamInsertBlob okBlobEnv none ⟨[], 1, 0⟩ 4 [17, 34] []).1.2.isSome = true ∧
    (StreamInsertBlob okBlobEnv none ⟨[], 1, 0⟩ 4 [17, 34] []).2 = ⟨[], 1, 0⟩ :=
  streamInsertBlob_size_mismatch_rejected okBlobEnv none ⟨[], 1, 0⟩ 4 [17, 34] []
    rfl rfl (by simp) (by decide)

/-! ## Parameter binding (`bindParams` in `exec/exec.go`) -/

/-- A prepared statement as seen by `bindParams`: `names` lists
`stmt.BindParamName(i)` for `i = 1 .. stmt.BindParamCount()`, the empty
string standing for a purely positional (unnamed) parameter. -/
structure StmtParams where
  names : List String

/-- A binding applied to one parameter slot by one of the `Bind*` calls. -/
inductive Binding where
  | null
  | text (s : String)
  | int64 (n : Int)
  | float (x : Float)
  | bool (b : Bool)
  | bytes (bs : List UInt8)

/-- The `%T` dynamic type name of a value, as far as the model knows it
(the integer and floating kinds are collapsed). -/
def goTypeName : GoValue → String
  | .str _ => "string"
  | .int _ => "int64"
  | .float _ => "float64"
  | .bool _ => "bool"
  | .bytes _ => "byte-slice"
  | .ptr _ => "pointer"
  | .nil => "nil"
  | .unsupported typeName => typeName

/-- The message printed by `bindParams` for an unsupported value kind. -/
def unsupportedMsg (name typeName : String) : String :=
  s!"unsupported type for parameter {name}: {typeName}"

/-- The type switch of `bindParams` on the (dereferenced) value: `some` is
the `Bind*` call made, `none` the default branch — every kind other than
string, int/int32/int64, float32/float64, bool and byte slice, including a
value that is still a pointer after the single dereference. -/
def dispatchValue : GoValue → Option Binding
  | .str s => some (.text s)
  | .int n => some (.int64 n)
  | .float x => some (.float x)
  | .bool b => some (.bool b)
  | .bytes bs => some (.bytes bs)
  | _ => none

/-- What one loop iteration of `bindParams` does with a named parameter:
either a `Bind*` call or a printed message with the slot left unbound. -/
inductive BindAction where
  | bind (b : Binding)
  | skip (msg : String)

/-- The body of the `bindParams` loop after the unnamed-parameter check:
a name absent from the map or mapped to the nil interface binds null; a nil
pointer binds null; a non-nil pointer is dereferenced once before the type
switch; the switch either binds the value or prints the unsupported-type
message and binds nothing. -/
def bindOneValue (name : String) (v : Option GoValue) : BindAction :=
  match v with
  | none => .bind .null
  | some .nil => .bind .null
  | some (.ptr none) => .bind .null
  | some (.ptr (some inner)) =>
    match dispatchValue inner with
    | some b => .bind b
    | none => .skip (unsupportedMsg name (goTypeName inner))
  | some value =>
    match dispatchValue value with
    | some b => .bind b
    | none => .skip (unsupportedMsg name (goTypeName value))

/-- The `for i := 1; i <= stmt.BindParamCount(); i++` loop of `bindParams`:
`i` is the 1-based index of the first name in the remaining list; an
unnamed parameter is skipped entirely (`continue`).  Returns the `Bind*`
calls made, as index/binding pairs, and the printed lines, in order. -/
def bindLoop (ps : ParamMap) (i : Nat) :
    List String → List (Nat × Binding) × List String
  | [] => ([], [])
  | name :: rest =>
    let tail := bindLoop ps (i + 1) rest
    if name = "" then tail
    else
      match bindOneValue name (lookupParam ps name) with
      | .bind b => ((i, b) :: tail.1, tail.2)
      | .skip m => (tail.1, m :: tail.2)

/-- Transcription of `bindParams` from `exec/exec.go`.  It is a total function — it can
neither return an error nor panic; a nil parameter map makes it return
immediately, binding nothing. -/
def bindParams (stmt : StmtParams) (params : Option ParamMap) :
    List (Nat × Binding) × List String :=
  match params with
  | none => ([], [])
  | some ps => bindLoop ps 1 stmt.names

/-- A binding `(j, b)` is made by the loop exactly when slot `j` carries a
non-empty name whose looked-up value dispatches to `b`. -/
theorem bindLoop_mem_iff (ps : ParamMap) :
    ∀ (names : List String) (i j : Nat) (b : Binding),
      (j, b) ∈ (bindLoop ps i names).1 ↔
        ∃ k name, names[k]? = some name ∧ j = i + k ∧ name ≠ "" ∧
          bindOneValue name (lookupParam ps name) = .bind b := by
  intro names
  induction names with
  | nil => intro i j b; simp [bindLoop]
  | cons hd tl ih =>
    intro i j b
    by_cases hhd : hd = ""
    · subst hhd
      simp only [bindLoop, eq_self_iff_true, if_true]
      rw [ih (i + 1) j b]
      constructor
      · rintro ⟨k, name, hk, hj, hne, hb⟩
        exact ⟨k + 1, name, by simpa using hk, by omega, hne, hb⟩
      · rintro ⟨k, name, hk, hj, hne, hb⟩
        cases k with
        | zero =>
          simp only [List.getElem?_cons_zero, Option.some.injEq] at hk
          exact absurd hk.symm hne
        | succ k =>
          exact ⟨k, name, by simpa using hk, by omega, hne, hb⟩
    · cases hact : bindOneValue hd (lookupParam ps hd) with
      | bind b0 =>
        simp only [bindLoop, if_neg hhd, hact, List.mem_cons]
        rw [ih (i + 1) j b]
        constructor
        · rintro (heq | ⟨k, name, hk, hj, hne, hb⟩)
          · simp only [Prod.mk.injEq] at heq
            obtain ⟨rfl, rfl⟩ := heq
            exact ⟨0, hd, by simp, by omega, hhd, hact⟩
          · exact ⟨k + 1, name, by simpa using hk, by omega, hne, hb⟩
        · rintro ⟨k, name, hk, hj, hne, hb⟩
          cases k with
          | zero =>
            simp only [List.getElem?_cons_zero, Option.some.injEq] at hk
            subst hk
            rw [hact] at hb
            injection hb with hbb
            left
            simp [hj, hbb]
          | succ k =>
            exact Or.inr ⟨k, name, by simpa using hk, by omega, hne, hb⟩
      | skip m =>
        simp only [bindLoop, if_neg hhd, hact]
        rw [ih (i + 1) j b]
        constructor
        · rintro ⟨k, name, hk, hj, hne, hb⟩
          exact ⟨k + 1, name, by simpa using hk, by omega, hne, hb⟩
        · rintro ⟨k, name, hk, hj, hne, hb⟩
          cases k with
          | zero =>
            simp only [List.getElem?_cons_zero, Option.some.injEq] at hk
            subst hk
            rw [hact] at hb
            exact absurd hb (by simp)
          | succ k =>
            exact ⟨k, name, by simpa using hk, by omega, hne, hb⟩

/-- A message is printed by the loop exactly when some slot carries a
non-empty name whose looked-up value is skipped with that message. -/
theorem bindLoop_msg_iff (ps : ParamMap) :
    ∀ (names : List String) (i : Nat) (m : String),
      m ∈ (bindLoop ps i names).2 ↔
        ∃ (k : Nat) (name : String), names[k]? = some name ∧ name ≠ "" ∧
          bindOneValue name (lookupParam ps name) = .skip m := by
  intro names
  induction names with
  | nil => intro i m; simp [bindLoop]
  | cons hd tl ih =>
    intro i m
    by_cases hhd : hd = ""
    · subst hhd
      simp only [bindLoop, eq_self_iff_true, if_true]
      rw [ih (i + 1) m]
      constructor
      · rintro ⟨k, name, hk, hne, hb⟩
        exact ⟨k + 1, name, by simpa using hk, hne, hb⟩
      · rintro ⟨k, name, hk, hne, hb⟩
        cases k with
        | zero =>
          simp only [List.getElem?_cons_zero, Option.some.injEq] at hk
          exact absurd hk.symm hne
        | succ k =>
          exact ⟨k, name, by simpa using hk, hne, hb⟩
    · cases hact : bindOneValue hd (lookupParam ps hd) with
      | bind b0 =>
        simp only [bindLoop, if_neg hhd, hact]
        rw [ih (i + 1) m]
        constructor
        · rintro ⟨k, name, hk, hne, hb⟩
          exact ⟨k + 1, name, by simpa using hk, hne, hb⟩
        · rintro ⟨k, name, hk, hne, hb⟩
          cases k with
          | zero =>
            simp only [List.getElem?_cons_zero, Option.some.injEq] at hk
            subst hk
            rw [hact] at hb
            exact absurd hb (by simp)
          | succ k =>
            exact ⟨k, name, by simpa using hk, hne, hb⟩
      | skip m0 =>
        simp only [bindLoop, if_neg hhd, hact, List.mem_cons]
        rw [ih (i + 1) m]
        constructor
        · rintro (rfl | ⟨k, name, hk, hne, hb⟩)
          · exact ⟨0, hd, by simp, hhd, hact⟩
          · exact ⟨k + 1, name, by simpa using hk, hne, hb⟩
        · rintro ⟨k, name, hk, hne, hb⟩
          cases k with
          | zero =>
            simp only [List.getElem?_cons_zero, Option.some.injEq] at hk
            subst hk
            rw [hact] at hb
            injection hb with hbb
            exact Or.inl hbb.symm
          | succ k =>
            exact Or.inr ⟨k, name, by simpa using hk, hne, hb⟩

/-- C9: parameter binding is total and never aborts execution — it returns
bindings and printed lines, never an error (totality is the type of
`bindParams`).  With a non-nil map: a named parameter absent from the map,
or mapped to the nil interface or to a nil pointer, is bound to SQL null;
an unnamed (purely positional) parameter is skipped entirely, so no binding
carries its index; a value of an unsupported dynamic kind leaves its
parameter unbound and prints a message naming parameter and type. -/
theorem bindParams_null_policy (names : List String) (ps : ParamMap) :
    (∀ (k : Nat) (name : String), names[k]? = some name → name ≠ "" →
        (lookupParam ps name = none ∨ lookupParam ps name = some .nil ∨
         lookupParam ps name = some (.ptr none)) →
        (k + 1, Binding.null) ∈ (bindParams ⟨names⟩ (some ps)).1) ∧
    (∀ (k : Nat) (b : Binding), names[k]? = some "" →
        (k + 1, b) ∉ (bindParams ⟨names⟩ (some ps)).1) ∧
    (∀ (k : Nat) (name typeName : String), names[k]? = some name → name ≠ "" →
        lookupParam ps name = some (.unsupported typeName) →
        (∀ b, (k + 1, b) ∉ (bindParams ⟨names⟩ (some ps)).1) ∧
        unsupportedMsg name typeName ∈ (bindParams ⟨names⟩ (some ps)).2) := by
  refine ⟨?_, ?_, ?_⟩
  · intro k name hk hne hv
    rw [show (bindParams ⟨names⟩ (some ps)).1 = (bindLoop ps 1 names).1 from rfl,
      bindLoop_mem_iff]
    refine ⟨k, name, hk, by omega, hne, ?_⟩
    rcases hv with h | h | h <;> rw [h] <;> rfl
  · intro k b hk hmem
    rw [show (bindParams ⟨names⟩ (some ps)).1 = (bindLoop ps 1 names).1 from rfl,
      bindLoop_mem_iff] at hmem
    obtain ⟨k1, name, hk1, hj, hne, _⟩ := hmem
    have hkk : k1 = k := by omega
    subst hkk
    rw [hk] at hk1
    have hname : name = "" := by simpa using hk1.symm
    exact hne hname
  · intro k name typeName hk hne hval
    constructor
    · intro b hmem
      rw [show (bindParams ⟨names⟩ (some ps)).1 = (bindLoop ps 1 names).1 from rfl,
        bindLoop_mem_iff] at hmem
      obtain ⟨k1, name1, hk1, hj, hne1, hb⟩ := hmem
      have hkk : k1 = k := by omega
      subst hkk
      rw [hk] at hk1
      have hname : name1 = name := by simpa using hk1.symm
      subst hname
      rw [hval] at hb
      simp [bindOneValue, dispatchValue] at hb
    · rw [show (bindParams ⟨names⟩ (some ps)).2 = (bindLoop ps 1 names).2 from rfl,
        bindLoop_msg_iff]
      refine ⟨k, name, hk, hne, ?_⟩
      rw [hval]
      rfl

/-- Parameter names of a statement exercising the binding policy: one
unnamed slot, one bound name, one absent name, one unsupported value, one
nil pointer. -/
def bindCheckNames : List String := ["", ":a", ":b", ":c", ":d"]

/-- The parameter map paired with `bindCheckNames`. -/
def bindCheckParams : ParamMap :=
  [(":a", .str "x"), (":c", .unsupported "chan int"), (":d", .ptr none)]

theorem bindParams_null_policy_check :
    (3, Binding.null) ∈ (bindParams ⟨bindCheckNames⟩ (some bindCheckParams)).1 ∧
    (5, Binding.null) ∈ (bindParams ⟨bindCheckNames⟩ (some bindCheckParams)).1 ∧
    unsupportedMsg ":c" "chan int" ∈ (bindParams ⟨bindCheckNames⟩ (some bindCheckParams)).2 := by
  have h := bindParams_null_policy bindCheckNames bindCheckParams
  exact ⟨h.1 2 ":b" rfl (by decide) (Or.inl rfl),
         h.1 4 ":d" rfl (by decide) (Or.inr (Or.inr rfl)),
         (h.2.2 3 ":c" "chan int" rfl (by decide) rfl).2⟩
